import Mathlib

/-
Verification of the `WorkflowProcessor` field-resolution and patching engine
(src/processor.py, the active class at lines 305-729) against its
natural-language specification.

The embedding models JSON values (the workflow payload documents) and the
Python-level operations the processor performs on them: dictionary `.get`
with defaults (raising AttributeError on non-dicts), `in` membership tests
(raising TypeError on unhashable keys), item assignment, Python truthiness,
and Python `==`.  Fallible steps return `Except Err`, with one `Err`
constructor per `raise` site of the source (plus constructors for the
Python runtime errors such behaviour can produce, and explicitly flagged
model-boundary markers).

Model boundary: JSON numbers are modelled as integers.  Documents with
non-integer numeric leaves, coercions targeting Python `float`
("float-field-config" fields), `str()` applied to containers, and
insertion of non-string dictionary keys are outside the model and are
marked by the dedicated `Err.unmodelled*` constructors; no claim verified
below depends on any of these.  Display-only code is not modelled: the
constructor's diagnostic printing, the warning prints (semantically
no-ops), the Pydantic schema generation (`get_input_schema`, lines
505-551), and the HTTP node around the processor (lines 732-941).
-/

namespace WorkflowProc

/-- JSON-like values as produced by `json.load`: null, booleans, integers,
strings, arrays, and string-keyed objects (Python dicts preserving
insertion order, modelled as association lists). -/
inductive Json where
  | null
  | bool (b : Bool)
  | int (n : Int)
  | str (s : String)
  | arr (elems : List Json)
  | obj (entries : List (String × Json))

/-- Python truthiness (`bool(x)`) of a JSON value. -/
def pyTruthy : Json → Bool
  | .null => false
  | .bool b => b
  | .int n => n != 0
  | .str s => s != ""
  | .arr l => !l.isEmpty
  | .obj l => !l.isEmpty

/-- First-match lookup in a string-keyed association list (Python dict
lookup; dicts parsed from JSON have unique keys, so first match is the
match). -/
def lookupStr : List (String × Json) → String → Option Json
  | [], _ => none
  | (k, v) :: rest, q => if k == q then some v else lookupStr rest q

/-- Python dict item assignment `d[k] = v`: replace the value of an
existing key in place (keeping its position), else append the new entry
(insertion order). -/
def setStr : List (String × Json) → String → Json → List (String × Json)
  | [], q, v => [(q, v)]
  | (k, w) :: rest, q, v =>
      if k == q then (q, v) :: rest else (k, w) :: setStr rest q v

/-- Whether a JSON value is hashable in Python (lists and dicts are not;
using one as a dict key or in a membership test raises TypeError). -/
def hashable : Json → Bool
  | .arr _ => false
  | .obj _ => false
  | _ => true

mutual

/-- Python `==` on JSON values: `True == 1`, element-wise list equality,
key-set/value dict equality (the dict case assumes unique keys, as in any
dict parsed from JSON); no cross-type equality otherwise. -/
def pyEq : Json → Json → Bool
  | .null, .null => true
  | .bool x, .bool y => x == y
  | .bool x, .int m => (if x then (1 : Int) else 0) == m
  | .int m, .bool x => m == (if x then (1 : Int) else 0)
  | .int m, .int k => m == k
  | .str s, .str t => s == t
  | .arr l₁, .arr l₂ => pyEqList l₁ l₂
  | .obj o₁, .obj o₂ => o₁.length == o₂.length && pyEqEntries o₁ o₂
  | _, _ => false

/-- Element-wise Python equality of two lists. -/
def pyEqList : List Json → List Json → Bool
  | [], [] => true
  | x :: xs, y :: ys => pyEq x y && pyEqList xs ys
  | _, _ => false

/-- Every entry of the first dict is present in the second with a
Python-equal value (lengths are compared separately by `pyEq`). -/
def pyEqEntries : List (String × Json) → List (String × Json) → Bool
  | [], _ => true
  | (k, v) :: rest, o₂ =>
      (match lookupStr o₂ k with
       | some w => pyEq v w
       | none => false) && pyEqEntries rest o₂

end

/-- Error outcomes of the embedded code: one constructor per `raise` site
of the source (all of them `ValueError`/`TypeError` in Python, here tagged
by site so statements can name which failure occurred), plus the Python
runtime errors the modelled operations can raise, plus explicitly flagged
model-boundary markers (see the header comment). -/
inductive Err where
  /-- Python TypeError raised by the runtime (unhashable key, bad operand). -/
  | pyTypeError
  /-- Python AttributeError (e.g. `.get` called on a non-dict). -/
  | pyAttributeError
  /-- Python KeyError (indexing a dict at a missing key). -/
  | pyKeyError
  /-- Python IndexError (list index out of range). -/
  | pyIndexError
  /-- Source line 408: `batch.workflow.form` is not a dict. -/
  | formNotDict
  /-- Source line 417: missing `elements` dict or falsy `rootElementId`. -/
  | malformedFormSection
  /-- Source line 424: root element missing or not a container. -/
  | rootNotContainer
  /-- Source line 431: container's `data.children` is not a list. -/
  | childrenNotList
  /-- Source line 475: node-field with falsy `settings.type` that is not
  the special-cased `"image"` field. -/
  | missingSettingsType (elementId : Json)
  /-- Source line 490: falsy `nodeId`, `fieldName` or `settings_type`. -/
  | missingCriticalData (elementId : Json)
  /-- Source line 589: `batch.graph.nodes` missing or falsy. -/
  | noGraphNodes
  /-- Source line 611: an update item is not a single key-value pair. -/
  | malformedUpdateItem (index : Nat)
  /-- Source line 642: the `occurrence`-th item keyed `key` found no
  unconsumed matching descriptor (unknown key, or key exhausted). -/
  | occurrenceNotFound (key : String) (occurrence : Nat)
  /-- Source line 656: the field's `settings_type` has no `_type_map` entry. -/
  | unsupportedFieldType (key : String)
  /-- Source line 672: the value could not be coerced to the mapped type. -/
  | typeMismatch (key : String)
  /-- Source line 690: the target node id is absent from `batch.graph.nodes`. -/
  | nodeNotInGraph (key : String)
  /-- Model boundary: a Python `float` value would be produced here. -/
  | unmodelledFloat
  /-- Model boundary: Python `str()` of a container (repr text) needed. -/
  | unmodelledRepr
  /-- Model boundary: a non-string dict key would be inserted here. -/
  | unmodelledNonStringKey

/-- Python `x.get(key, default)` for a constant string key: returns the
stored value or the default on a dict, raises AttributeError otherwise. -/
def pyGetAttr (j : Json) (key : String) (default : Json) : Except Err Json :=
  match j with
  | .obj kvs => .ok ((lookupStr kvs key).getD default)
  | _ => .error .pyAttributeError

/-- Python `d.get(q)` on a string-keyed dict with a computed key `q`
(default `None`): TypeError on unhashable keys; a hashable non-string key
never equals a string key, so it yields the default. -/
def pyGetKey (j : Json) (q : Json) : Except Err Json :=
  match j with
  | .obj kvs =>
      if hashable q then
        match q with
        | .str s => .ok ((lookupStr kvs s).getD .null)
        | _ => .ok .null
      else .error .pyTypeError
  | _ => .error .pyAttributeError

/-- Whether the character list `n` is a prefix of `h`. -/
def listPrefix : List Char → List Char → Bool
  | [], _ => true
  | _ :: _, [] => false
  | a :: as, b :: bs => a == b && listPrefix as bs

/-- Whether `n` occurs as a contiguous sublist of `h` (Python substring
containment for `in` on strings). -/
def listSub (n h : List Char) : Bool :=
  (List.range (h.length + 1)).any (fun i => listPrefix n (h.drop i))

/-- Python `q in j`: dict key membership (TypeError on unhashable `q`),
list membership by `==`, substring test on strings (TypeError unless both
are strings), TypeError on every other receiver. -/
def pyContains (j : Json) (q : Json) : Except Err Bool :=
  match j with
  | .obj kvs =>
      if hashable q then
        match q with
        | .str s => .ok (lookupStr kvs s).isSome
        | _ => .ok false
      else .error .pyTypeError
  | .arr l => .ok (l.any (fun e => pyEq e q))
  | .str s =>
      match q with
      | .str t => .ok (listSub t.toList s.toList)
      | _ => .error .pyTypeError
  | _ => .error .pyTypeError

/-- Python `j[key]` for a constant string key (the only item-access shape
the source uses): dict lookup raising KeyError when the key is missing;
TypeError on lists, strings and scalars (a string key is no valid index
for any of them). -/
def pyIndexStr (j : Json) (key : String) : Except Err Json :=
  match j with
  | .obj kvs =>
      match lookupStr kvs key with
      | some v => .ok v
      | none => .error .pyKeyError
  | _ => .error .pyTypeError

/-- Python `j[q] = v` where `q` is a computed key (the graph-node direct
assignment `target_graph_node[field_name_in_node] = value`): dict
assignment for string keys (a non-string hashable key would be inserted by
Python but is outside the string-keyed model, flagged), TypeError on an
unhashable dict key, list index assignment with negative wrap-around,
TypeError on every other receiver. -/
def pySetKey (j : Json) (q : Json) (v : Json) : Except Err Json :=
  match j with
  | .obj kvs =>
      if hashable q then
        match q with
        | .str s => .ok (.obj (setStr kvs s v))
        | _ => .error .unmodelledNonStringKey
      else .error .pyTypeError
  | .arr l =>
      match q with
      | .int n =>
          let i : Int := if n < 0 then n + l.length else n
          if 0 ≤ i ∧ i < l.length then .ok (.arr (l.set i.toNat v))
          else .error .pyIndexError
      | .bool b =>
          let i : Nat := if b then 1 else 0
          if i < l.length then .ok (.arr (l.set i v))
          else .error .pyIndexError
      | _ => .error .pyTypeError
  | _ => .error .pyTypeError

/-- Python `for x in j`: list elements, dict keys, the characters of a
string (as one-character strings); TypeError on scalars. -/
def iterElems : Json → Except Err (List Json)
  | .arr l => .ok l
  | .obj kvs => .ok (kvs.map (fun kv => .str kv.1))
  | .str s => .ok (s.toList.map (fun c => .str (String.mk [c])))
  | _ => .error .pyTypeError

/-- Association list keyed by arbitrary hashable JSON values, compared
with Python `==` (so `1` and `True` are the same key, as in a Python
dict).  Callers check `hashable` before touching it, mirroring where
Python would hash. -/
def HMap (V : Type) : Type := List (Json × V)

/-- Lookup in an `HMap` by Python key equality. -/
def hmapFind {V : Type} (m : HMap V) (q : Json) : Option V :=
  match m with
  | [] => none
  | kv :: rest => if pyEq kv.1 q then some kv.2 else hmapFind rest q

/-- Assignment in an `HMap`: replace the first Python-equal key in place,
else append (Python dict assignment). -/
def hmapSet {V : Type} (m : HMap V) (q : Json) (v : V) : HMap V :=
  match m with
  | [] => [(q, v)]
  | kv :: rest => if pyEq kv.1 q then (q, v) :: rest else kv :: hmapSet rest q v

/-- Inner loop of the label-map construction (source lines 446-450): from
a workflow node's `data.inputs` dict, the map field-name -> label over the
input definitions that are dicts carrying a `label` key. -/
def nodeInputLabels (inputs : List (String × Json)) : List (String × Json) :=
  inputs.foldl
    (fun acc kv =>
      match kv.2 with
      | .obj fd =>
          match lookupStr fd "label" with
          | some lab => setStr acc kv.1 lab
          | none => acc
      | _ => acc)
    []

/-- Label-map construction (source lines 437-450): iterate
`batch.workflow.nodes`; for each element that is a dict with an `id` key
and a dict-valued `data` key, (re)initialise the entry for its id, then
fill it from `data.get("inputs", \x7b\x7d)` when that is a dict.  Hashing
the node id raises TypeError when it is unhashable. -/
def buildLabelsMap (nodesList : Json) : Except Err (HMap (List (String × Json))) :=
  match iterElems nodesList with
  | .error e => .error e
  | .ok elems =>
      elems.foldlM
        (fun m node =>
          match node with
          | .obj kvs =>
              match lookupStr kvs "id", lookupStr kvs "data" with
              | some nid, some (.obj dataKvs) =>
                  if hashable nid then
                    let m₁ := hmapSet m nid []
                    match (lookupStr dataKvs "inputs").getD (.obj []) with
                    | .obj inputs => .ok (hmapSet m₁ nid (nodeInputLabels inputs))
                    | _ => .ok m₁
                  else .error Err.pyTypeError
              | _, _ => .ok m
          | _ => .ok m)
        []

/-- Parsed record of one exposed field (one entry of the source's
`_ordered_exposed_fields` list, lines 496-502): owning node id, field name
inside the node, the `settings.type` tag, the originating form-element id,
and the field's label from the workflow node's input metadata
(`Json.null` when absent, matching Python `None`). -/
structure FieldInfo where
  nodeId : Json
  fieldNameInNode : Json
  settingsType : Json
  formElementId : Json
  fieldLabel : Json

/-- Node-field extraction inside `processChild` (source lines 461-502),
split out so the missing-type abort (line 475) can be stated on its own. -/
def processNodeField (labels : HMap (List (String × Json))) (cid : Json)
    (fieldData : Json) : Except Err (Option FieldInfo) :=
  match pyGetAttr fieldData "fieldIdentifier" (.obj []) with
  | .error e => .error e
  | .ok fieldIdentifier =>
  match pyGetAttr fieldIdentifier "nodeId" .null with
  | .error e => .error e
  | .ok nodeId =>
  match pyGetAttr fieldIdentifier "fieldName" .null with
  | .error e => .error e
  | .ok fieldName =>
  match pyGetAttr fieldData "settings" (.obj []) with
  | .error e => .error e
  | .ok settings =>
  match pyGetAttr settings "type" .null with
  | .error e => .error e
  | .ok settingsType₀ =>
  match (if !pyTruthy settingsType₀ then
           if pyEq fieldName (.str "image") then .ok (.str "ImageField")
           else .error (.missingSettingsType cid)
         else .ok settingsType₀ : Except Err Json) with
  | .error e => .error e
  | .ok settingsType =>
  match (if hashable nodeId then
           match hmapFind labels nodeId with
           | some inner =>
               if hashable fieldName then
                 match fieldName with
                 | .str fs => .ok ((lookupStr inner fs).getD .null)
                 | _ => .ok .null
               else .error Err.pyTypeError
           | none => .ok .null
         else .error Err.pyTypeError : Except Err Json) with
  | .error e => .error e
  | .ok fieldLabel₀ =>
  if pyTruthy nodeId && pyTruthy fieldName && pyTruthy settingsType then
    .ok (some ⟨nodeId, fieldName, settingsType, cid,
               if pyEq fieldLabel₀ (.str "") then Json.null else fieldLabel₀⟩)
  else .error (.missingCriticalData cid)

/-- Per-child processing of the form's `data.children` loop body (source
lines 453-502): look the child id up in `form.elements` (Python `.get`,
TypeError on an unhashable id); skip non-dict elements and elements whose
`type` is not `"node-field"`; for a node-field, extract the field
identifier, resolve `settings.type` (special-casing a falsy type on a
field named `"image"` to `"ImageField"`, raising otherwise), resolve the
label from the label map (observing Python's short-circuit hashing), blank
labels becoming `None`, and require node id, field name and type to be
truthy.  Returns `none` for a skipped child, `some` descriptor otherwise. -/
def processChild (elements : List (String × Json))
    (labels : HMap (List (String × Json))) (cid : Json) :
    Except Err (Option FieldInfo) :=
  if hashable cid then
    let felem := match cid with
      | .str s => (lookupStr elements s).getD .null
      | _ => Json.null
    match felem with
    | .obj fkvs =>
        if pyEq ((lookupStr fkvs "type").getD .null) (.str "node-field") then
          processNodeField labels cid ((lookupStr fkvs "data").getD (.obj []))
        else .ok none
    | _ => .ok none
  else .error Err.pyTypeError

/-- The form-children loop (source lines 452-503): process each child id
in declared order, appending the descriptors of node-field children. -/
def processChildren (elements : List (String × Json))
    (labels : HMap (List (String × Json))) :
    List Json → Except Err (List FieldInfo)
  | [] => .ok []
  | cid :: rest =>
      match processChild elements labels cid with
      | .error e => .error e
      | .ok fi? =>
          match processChildren elements labels rest with
          | .error e => .error e
          | .ok rest' =>
              .ok (match fi? with
                   | some fi => fi :: rest'
                   | none => rest')

/-- The source's `_build_ordered_exposed_fields_list` (lines 372-503):
locate `batch.workflow.form`, validate `elements`/`rootElementId`, find
the root container and its `data.children` order, build the label map from
`batch.workflow.nodes`, then process the children in order. -/
def buildOrderedExposedFieldsList (payload : Json) : Except Err (List FieldInfo) :=
  match pyGetAttr payload "batch" (.obj []) with
  | .error e => .error e
  | .ok batch =>
  match pyGetAttr batch "workflow" (.obj []) with
  | .error e => .error e
  | .ok wf =>
  match pyGetAttr wf "form" .null with
  | .error e => .error e
  | .ok form =>
  match form with
  | .obj formKvs =>
      match (lookupStr formKvs "elements").getD .null with
      | .obj elemKvs =>
          if pyTruthy ((lookupStr formKvs "rootElementId").getD .null) then
            if hashable ((lookupStr formKvs "rootElementId").getD .null) then
              match (match (lookupStr formKvs "rootElementId").getD .null with
                     | .str s => (lookupStr elemKvs s).getD .null
                     | _ => Json.null) with
              | .obj rootKvs =>
                  if pyEq ((lookupStr rootKvs "type").getD .null) (.str "container") then
                    match pyGetAttr ((lookupStr rootKvs "data").getD (.obj []))
                        "children" .null with
                    | .error e => .error e
                    | .ok children =>
                        match children with
                        | .arr childIds =>
                            match pyGetAttr wf "nodes" (.arr []) with
                            | .error e => .error e
                            | .ok nodesList =>
                                match buildLabelsMap nodesList with
                                | .error e => .error e
                                | .ok labels =>
                                    processChildren elemKvs labels childIds
                        | _ => .error .childrenNotList
                  else .error .rootNotContainer
              | _ => .error .rootNotContainer
            else .error Err.pyTypeError
          else .error .malformedFormSection
      | _ => .error .malformedFormSection
  | _ => .error .formNotDict

/-- Python target types appearing in the source's `_type_map` (lines
363-370): `int`, `float`, `str` ("integer-field-config" -> int,
"float-field-config" -> float, "string-field-config" -> str,
"ImageField" -> str). -/
inductive PyType where
  | int
  | float
  | str

/-- The `_type_map.get(expected_type_str)` lookup (source line 652):
hashing an unhashable `settings_type` raises TypeError; otherwise only the
four known string tags map to a Python type. -/
def typeMapGet (settingsType : Json) : Except Err (Option PyType) :=
  if hashable settingsType then
    .ok (match settingsType with
         | .str "integer-field-config" => some .int
         | .str "float-field-config" => some .float
         | .str "string-field-config" => some .str
         | .str "ImageField" => some .str
         | _ => none)
  else .error .pyTypeError

/-- Python `isinstance(v, t)` for the mapped types; note `bool` is a
subclass of `int` in Python, and no `float` values exist in this model. -/
def isinstancePy (v : Json) : PyType → Bool
  | .int => match v with
            | .int _ => true
            | .bool _ => true
            | _ => false
  | .float => false
  | .str => match v with
            | .str _ => true
            | _ => false

/-- Digit-string parsing for Python `int(str)`: a nonempty digit sequence
with single underscores allowed between digits. -/
def parseDigitsU (prevDigit : Bool) (acc : Nat) : List Char → Option Nat
  | [] => if prevDigit then some acc else none
  | c :: cs =>
      if c == '_' then
        if prevDigit then parseDigitsU false acc cs else none
      else if c.isDigit then
        parseDigitsU true (acc * 10 + (c.toNat - 48)) cs
      else none

/-- ASCII whitespace as stripped by Python `int(str)`. -/
def isPyWs (c : Char) : Bool :=
  c == ' ' || c == '\t' || c == '\n' || c == '\r' || c == '\x0b' || c == '\x0c'

/-- Drop leading whitespace characters. -/
def dropWsLeft : List Char → List Char
  | [] => []
  | c :: cs => if isPyWs c then dropWsLeft cs else c :: cs

/-- Strip whitespace from both ends. -/
def stripWs (l : List Char) : List Char :=
  (dropWsLeft (dropWsLeft l.reverse).reverse)

/-- Python `int(s)` on a string: strip surrounding whitespace, optional
sign, decimal digits (underscore separators allowed); `none` when Python
would raise ValueError.  ASCII digits only: the exotic unicode digit forms
Python also accepts are outside the model, as is its full whitespace set. -/
def pyIntOfString (s : String) : Option Int :=
  match stripWs s.toList with
  | '+' :: rest => (parseDigitsU false 0 rest).map Int.ofNat
  | '-' :: rest => (parseDigitsU false 0 rest).map (fun n => -(Int.ofNat n))
  | l => (parseDigitsU false 0 l).map Int.ofNat

/-- Type coercion of an update value (source lines 665-676): `None` and
values already of the expected type pass through; otherwise construction
via the target type — `int(str)` parses, `int(list/dict)` raises TypeError
(caught and re-raised as the `typeMismatch` site), `str(int)`/`str(bool)`
render; `str()` of containers and every `float(...)` construction would
produce values outside this model and are flagged. -/
def coerceValue (pt : PyType) (key : String) (v : Json) : Except Err Json :=
  match v with
  | .null => .ok .null
  | _ =>
    if isinstancePy v pt then .ok v
    else
      match pt with
      | .int =>
          match v with
          | .str s =>
              match pyIntOfString s with
              | some n => .ok (.int n)
              | none => .error (.typeMismatch key)
          | _ => .error (.typeMismatch key)
      | .str =>
          match v with
          | .int n => .ok (.str (toString n))
          | .bool b => .ok (.str (if b then "True" else "False"))
          | _ => .error .unmodelledRepr
      | .float => .error .unmodelledFloat

/-- The descriptor search loop (source lines 630-636): walk the ordered
exposed-field list and return the `cursor`-th descriptor whose
`field_name_in_node` is Python-equal to the update key. -/
def findTarget : List FieldInfo → String → Nat → Option FieldInfo
  | [], _, _ => none
  | f :: rest, key, cursor =>
      if pyEq f.fieldNameInNode (.str key) then
        match cursor with
        | 0 => some f
        | n + 1 => findTarget rest key n
      else findTarget rest key cursor

/-- Lookup in the `field_cursors` dict (string keys). -/
def cursorGet : List (String × Nat) → String → Option Nat
  | [], _ => none
  | (k, n) :: rest, q => if k == q then some n else cursorGet rest q

/-- Assignment in the `field_cursors` dict. -/
def cursorSet : List (String × Nat) → String → Nat → List (String × Nat)
  | [], q, n => [(q, n)]
  | (k, m) :: rest, q, n =>
      if k == q then (q, n) :: rest else (k, m) :: cursorSet rest q n

/-- Which location the graph-node update chain (source lines 697-708)
writes to. -/
inductive GraphPath where
  /-- The field name is a top-level key of the node. -/
  | topLevel
  /-- The field name is a key of the node's `inputs` dict. -/
  | inInputs
  /-- The field name is a key of the node's `data` dict. -/
  | inData
  /-- The field name is a key of the node's `data.inputs` dict. -/
  | inDataInputs
  /-- None of the recognised paths contains the field name (the source
  then warns and assigns directly at top level). -/
  | absent

/-- The `if`/`elif` condition cascade of the graph-node update (source
lines 697-705), with Python's short-circuit evaluation of `and`: which
path holds the field name, or `absent` when none does. -/
def findGraphPath (node : Json) (fname : Json) : Except Err GraphPath :=
  match pyContains node fname with
  | .error e => .error e
  | .ok true => .ok .topLevel
  | .ok false =>
  match pyContains node (.str "inputs") with
  | .error e => .error e
  | .ok hasInputs =>
  match (if hasInputs then
           match pyIndexStr node "inputs" with
           | .error e => .error e
           | .ok inner => pyContains inner fname
         else .ok false : Except Err Bool) with
  | .error e => .error e
  | .ok true => .ok .inInputs
  | .ok false =>
  match pyContains node (.str "data") with
  | .error e => .error e
  | .ok hasData =>
  match (if hasData then
           match pyIndexStr node "data" with
           | .error e => .error e
           | .ok d => pyContains d fname
         else .ok false : Except Err Bool) with
  | .error e => .error e
  | .ok true => .ok .inData
  | .ok false =>
  match (if hasData then
           match pyIndexStr node "data" with
           | .error e => .error e
           | .ok d =>
               match pyContains d (.str "inputs") with
               | .error e => .error e
               | .ok true =>
                   match pyIndexStr d "inputs" with
                   | .error e => .error e
                   | .ok di => pyContains di fname
               | .ok false => .ok false
         else .ok false : Except Err Bool) with
  | .error e => .error e
  | .ok true => .ok .inDataInputs
  | .ok false => .ok .absent

/-- The graph-node update (source lines 697-708): locate the field name
via `findGraphPath`, then assign the payload value at that location (the
`absent` case is the source's warn-then-assign-directly branch).  In
Python the nested assignments mutate dicts aliased inside the node; here
the node is rebuilt functionally with the same result. -/
def applyToGraphNode (node : Json) (fname : Json) (vp : Json) : Except Err Json :=
  match findGraphPath node fname with
  | .error e => .error e
  | .ok .topLevel => pySetKey node fname vp
  | .ok .inInputs =>
      (match pyIndexStr node "inputs" with
       | .error e => .error e
       | .ok inner =>
           match pySetKey inner fname vp with
           | .error e => .error e
           | .ok inner' => pySetKey node (.str "inputs") inner')
  | .ok .inData =>
      (match pyIndexStr node "data" with
       | .error e => .error e
       | .ok d =>
           match pySetKey d fname vp with
           | .error e => .error e
           | .ok d' => pySetKey node (.str "data") d')
  | .ok .inDataInputs =>
      (match pyIndexStr node "data" with
       | .error e => .error e
       | .ok d =>
           match pyIndexStr d "inputs" with
           | .error e => .error e
           | .ok di =>
               match pySetKey di fname vp with
               | .error e => .error e
               | .ok di' =>
                   match pySetKey d (.str "inputs") di' with
                   | .error e => .error e
                   | .ok d' => pySetKey node (.str "data") d')
  | .ok .absent => pySetKey node fname vp

/-- The workflow-node update (source lines 713-723): read
`data.inputs` via chained `.get`, and when it is a dict containing the
field name whose definition is itself a dict, set that definition's
`value` slot; in every other case warn and return the node unchanged.
The nested Python mutation is rebuilt functionally. -/
def applyToWorkflowNode (tw : Json) (fname : Json) (vp : Json) : Except Err Json :=
  match pyGetAttr tw "data" (.obj []) with
  | .error e => .error e
  | .ok d =>
  match pyGetAttr d "inputs" .null with
  | .error e => .error e
  | .ok ndi =>
  match ndi with
  | .obj ndiKvs =>
      if hashable fname then
        match fname with
        | .str fs =>
            (match lookupStr ndiKvs fs with
             | some (.obj fdKvs) =>
                 let fd' := Json.obj (setStr fdKvs "value" vp)
                 let ndi' := Json.obj (setStr ndiKvs fs fd')
                 (match d, tw with
                  | .obj dKvs, .obj twKvs =>
                      .ok (.obj (setStr twKvs "data" (.obj (setStr dKvs "inputs" ndi'))))
                  | _, _ => .ok tw)
             | some _ => .ok tw
             | none => .ok tw)
        | _ => .ok tw
      else .error Err.pyTypeError
  | _ => .ok tw

/-- The `workflow_nodes_map` comprehension (source line 598), as a map
from node id to the node's index in the iterated list (last occurrence
wins, as for a Python dict comprehension): only elements that are dicts
with an `id` key participate; hashing an unhashable id raises TypeError. -/
def buildWfIndexAux : HMap Nat → Nat → List Json → Except Err (HMap Nat)
  | m, _, [] => .ok m
  | m, i, node :: rest =>
      match node with
      | .obj kvs =>
          (match lookupStr kvs "id" with
           | some nid =>
               if hashable nid then buildWfIndexAux (hmapSet m nid i) (i + 1) rest
               else .error Err.pyTypeError
           | none => buildWfIndexAux m (i + 1) rest)
      | _ => buildWfIndexAux m (i + 1) rest

/-- The whole comprehension, from an empty map and index 0. -/
def buildWfIndex (elems : List Json) : Except Err (HMap Nat) :=
  buildWfIndexAux [] 0 elems

/-- The workflow-representation half of one update (source lines 712-727):
look the node id up in the workflow-nodes map; when found and truthy,
apply `applyToWorkflowNode` and write the node back at its index in the
list; otherwise warn and leave the list unchanged. -/
def workflowStep (wfIndex : HMap Nat) (wfNodes : Json) (nodeId fname vp : Json) :
    Except Err Json :=
  if hashable nodeId then
    match hmapFind wfIndex nodeId with
    | some i =>
        (match wfNodes with
         | .arr l =>
             (match l.get? i with
              | some tw =>
                  if pyTruthy tw then
                    match applyToWorkflowNode tw fname vp with
                    | .error e => .error e
                    | .ok tw' => .ok (.arr (l.set i tw'))
                  else .ok wfNodes
              | none => .ok wfNodes)
         | _ => .ok wfNodes)
    | none => .ok wfNodes
  else .error Err.pyTypeError

/-- Write the mutated graph node back into the `graph_nodes` dict (in
Python the node was mutated in place through an alias; success of the
preceding truthy lookup guarantees the string-keyed entry exists). -/
def writeGraphNode (graphNodes : Json) (nodeId : Json) (tg' : Json) : Json :=
  match graphNodes, nodeId with
  | .obj kvs, .str s => .obj (setStr kvs s tg')
  | g, _ => g

/-- State threaded through the update loop: the `field_cursors` dict, the
`graph_nodes` section, and the `workflow.nodes` section (the latter two
are mutated in place in Python). -/
structure LoopState where
  cursors : List (String × Nat)
  graphNodes : Json
  wfNodes : Json

/-- One iteration of the update loop (source lines 608-727): validate the
single-key shape, bump this key's cursor, select the target descriptor,
look up and apply the `_type_map` entry, coerce the value, wrap
`ImageField` values as an image dict, update the graph node (a falsy
lookup of the node id is the fatal inconsistency raise), then update the
workflow node. -/
def applyOneUpdate (fields : List FieldInfo) (wfIndex : HMap Nat)
    (st : LoopState) (idx : Nat) (item : List (String × Json)) :
    Except Err LoopState :=
  match item with
  | [(key, v)] =>
      let cursor := ((cursorGet st.cursors key).map (· + 1)).getD 0
      let cursors' := cursorSet st.cursors key cursor
      match findTarget fields key cursor with
      | none => .error (.occurrenceNotFound key (cursor + 1))
      | some target =>
      match typeMapGet target.settingsType with
      | .error e => .error e
      | .ok none => .error (.unsupportedFieldType key)
      | .ok (some pt) =>
      match coerceValue pt key v with
      | .error e => .error e
      | .ok v' =>
      let vp := if pyEq target.settingsType (.str "ImageField")
                then Json.obj [("image_name", v')] else v'
      match pyGetKey st.graphNodes target.nodeId with
      | .error e => .error e
      | .ok tg =>
      if pyTruthy tg then
        match applyToGraphNode tg target.fieldNameInNode vp with
        | .error e => .error e
        | .ok tg' =>
            let graphNodes' := writeGraphNode st.graphNodes target.nodeId tg'
            match workflowStep wfIndex st.wfNodes target.nodeId
                target.fieldNameInNode vp with
            | .error e => .error e
            | .ok wfNodes' => .ok ⟨cursors', graphNodes', wfNodes'⟩
      else .error (.nodeNotInGraph key)
  | _ => .error (.malformedUpdateItem idx)

/-- The update loop (source line 608): left-to-right over the update
items, threading the loop state; any failure aborts the whole call. -/
def applyUpdatesLoop (fields : List FieldInfo) (wfIndex : HMap Nat) :
    LoopState → Nat → List (List (String × Json)) → Except Err LoopState
  | st, _, [] => .ok st
  | st, idx, item :: rest =>
      match applyOneUpdate fields wfIndex st idx item with
      | .error e => .error e
      | .ok st' => applyUpdatesLoop fields wfIndex st' (idx + 1) rest

/-- Replace the value at a path of string keys when every step of the path
exists, and return the document unchanged otherwise.  This mirrors Python
aliasing: the loop mutates `graph_nodes`/`workflow_nodes_list` obtained by
chained `.get` with fresh defaults, so mutations are visible in the result
document exactly when the whole path was present. -/
def setPathIfExists : Json → List String → Json → Json
  | _, [], v => v
  | .obj kvs, k :: rest, v =>
      (match lookupStr kvs k with
       | some w => .obj (setStr kvs k (setPathIfExists w rest v))
       | none => .obj kvs)
  | j, _ :: _, _ => j

/-- The source's `apply_inputs` (lines 553-729) over an explicit payload
and descriptor list: deep-copy the payload (`json.loads(json.dumps(...))`,
the identity on these JSON values), fetch `batch.graph.nodes` and
`batch.workflow.nodes` (raising when `graph.nodes` is falsy), build the
workflow-nodes map, run the update loop, and return the copy with the
mutated sections visible through the aliasing rule of `setPathIfExists`. -/
def applyInputs (payload : Json) (fields : List FieldInfo)
    (updates : List (List (String × Json))) : Except Err Json :=
  match pyGetAttr payload "batch" (.obj []) with
  | .error e => .error e
  | .ok batch =>
  match pyGetAttr batch "graph" (.obj []) with
  | .error e => .error e
  | .ok graph =>
  match pyGetAttr graph "nodes" (.obj []) with
  | .error e => .error e
  | .ok graphNodes =>
  match pyGetAttr batch "workflow" (.obj []) with
  | .error e => .error e
  | .ok wf =>
  match pyGetAttr wf "nodes" (.arr []) with
  | .error e => .error e
  | .ok wfNodes =>
  if pyTruthy graphNodes then
    match iterElems wfNodes with
    | .error e => .error e
    | .ok wfElems =>
    match buildWfIndex wfElems with
    | .error e => .error e
    | .ok wfIndex =>
    match applyUpdatesLoop fields wfIndex ⟨[], graphNodes, wfNodes⟩ 0 updates with
    | .error e => .error e
    | .ok st =>
        .ok (setPathIfExists
              (setPathIfExists payload ["batch", "graph", "nodes"] st.graphNodes)
              ["batch", "workflow", "nodes"] st.wfNodes)
  else .error .noGraphNodes

/-- Processor state: the stored payload and the descriptor list built at
construction (`self._workflow_payload`, `self._ordered_exposed_fields`). -/
structure ProcessorState where
  workflowPayload : Json
  orderedExposedFields : List FieldInfo

/-- Constructor (`__init__`, lines 330-346): store the payload and build
the ordered exposed-fields list from it. -/
def ProcessorState.init (payload : Json) : Except Err ProcessorState :=
  match buildOrderedExposedFieldsList payload with
  | .error e => .error e
  | .ok fields => .ok ⟨payload, fields⟩

/-- The `apply_inputs` method as a state transition: it reads
`self._workflow_payload` and `self._ordered_exposed_fields` but assigns to
neither, so the post-state is the pre-state and only the returned document
is new. -/
def ProcessorState.applyInputsCall (p : ProcessorState)
    (updates : List (List (String × Json))) : ProcessorState × Except Err Json :=
  (p, applyInputs p.workflowPayload p.orderedExposedFields updates)

/-- Construction followed by one `apply_inputs` call (the node's usage:
`WorkflowProcessor(template_json)` then `processor.apply_inputs(...)`). -/
def processAndApply (payload : Json) (updates : List (List (String × Json))) :
    Except Err Json :=
  match buildOrderedExposedFieldsList payload with
  | .error e => .error e
  | .ok fields => applyInputs payload fields updates

/-- The resolution slice of the update loop (source lines 608-647, the
steps of each iteration up to and including target selection, before
type-map lookup, coercion and patching): the list of (descriptor, raw
value) bindings in request order, or the first resolution failure. -/
def resolveUpdatesAux (fields : List FieldInfo) :
    List (String × Nat) → Nat → List (List (String × Json)) →
    Except Err (List (FieldInfo × Json))
  | _, _, [] => .ok []
  | cursors, idx, item :: rest =>
      match item with
      | [(key, v)] =>
          let cursor := ((cursorGet cursors key).map (· + 1)).getD 0
          let cursors' := cursorSet cursors key cursor
          (match findTarget fields key cursor with
           | none => .error (.occurrenceNotFound key (cursor + 1))
           | some target =>
               match resolveUpdatesAux fields cursors' (idx + 1) rest with
               | .error e => .error e
               | .ok rest' => .ok ((target, v) :: rest'))
      | _ => .error (.malformedUpdateItem idx)

/-- Resolution of a whole update request, starting from empty cursors. -/
def resolveUpdates (fields : List FieldInfo) (updates : List (List (String × Json))) :
    Except Err (List (FieldInfo × Json)) :=
  resolveUpdatesAux fields [] 0 updates

/-- Filter-index characterisation of a resolution error kind: whether an
error came from the line-642 raise site. -/
def Err.isOccurrenceNotFound : Err → Bool
  | .occurrenceNotFound _ _ => true
  | _ => false

/-- Whether a child id of the form root denotes a node-field element: the
id is a string whose entry in `form.elements` is a dict with
`type == "node-field"`. -/
def isNodeFieldChild (elements : List (String × Json)) (cid : Json) : Bool :=
  match cid with
  | .str s =>
      (match (lookupStr elements s).getD .null with
       | .obj fkvs => pyEq ((lookupStr fkvs "type").getD .null) (.str "node-field")
       | _ => false)
  | _ => false

/-- Whether a child id of the form root denotes a nested container: the id
is a string whose entry in `form.elements` is a dict with
`type == "container"`. -/
def isContainerChild (elements : List (String × Json)) (cid : Json) : Bool :=
  match cid with
  | .str s =>
      (match (lookupStr elements s).getD .null with
       | .obj fkvs => pyEq ((lookupStr fkvs "type").getD .null) (.str "container")
       | _ => false)
  | _ => false

/-- The `batch.workflow.form` value of a payload, read the way the source
reads it (null when any step fails). -/
def formSection (payload : Json) : Json :=
  match pyGetAttr payload "batch" (.obj []) with
  | .ok batch =>
      (match pyGetAttr batch "workflow" (.obj []) with
       | .ok wf =>
           (match pyGetAttr wf "form" .null with
            | .ok f => f
            | .error _ => .null)
       | .error _ => .null)
  | .error _ => .null

/-- The entries of `form.elements` (empty when the form is malformed). -/
def formElementsOf (payload : Json) : List (String × Json) :=
  match formSection payload with
  | .obj fk =>
      (match (lookupStr fk "elements").getD .null with
       | .obj ek => ek
       | _ => [])
  | _ => []

/-- The declared child-id order of the form's root container (empty when
the form is malformed). -/
def formChildrenOf (payload : Json) : List Json :=
  match formSection payload with
  | .obj fk =>
      (match (lookupStr fk "rootElementId").getD .null with
       | .str s =>
           (match (lookupStr (formElementsOf payload) s).getD .null with
            | .obj rootKvs =>
                (match pyGetAttr ((lookupStr rootKvs "data").getD (.obj []))
                    "children" .null with
                 | .ok (.arr ids) => ids
                 | _ => [])
            | _ => [])
       | _ => [])
  | _ => []

/-- Top-level value of a field of a graph node of a document (the location
the end-to-end property inspects). -/
def graphNodeField (doc : Json) (nid fn : String) : Option Json :=
  match pyGetAttr doc "batch" (.obj []) with
  | .ok b =>
      (match pyGetAttr b "graph" (.obj []) with
       | .ok g =>
           (match pyGetAttr g "nodes" (.obj []) with
            | .ok (.obj ns) =>
                (match lookupStr ns nid with
                 | some (.obj node) => lookupStr node fn
                 | _ => none)
            | _ => none)
       | _ => none)
  | .error _ => none

/-- Concrete document for the end-to-end example: fields `value` (integer,
node `n1`) and `prompt` (string, node `n2`) exposed in that order. -/
def d6 : Json := .obj [
  ("batch", .obj [
    ("graph", .obj [("nodes", .obj [
       ("n1", .obj [("id", .str "n1"), ("type", .str "integer"), ("value", .int 1)]),
       ("n2", .obj [("id", .str "n2"), ("type", .str "string"), ("prompt", .str "x")])])]),
    ("workflow", .obj [
      ("form", .obj [
        ("rootElementId", .str "root"),
        ("elements", .obj [
          ("root", .obj [("type", .str "container"),
                         ("data", .obj [("children", .arr [.str "e1", .str "e2"])])]),
          ("e1", .obj [("type", .str "node-field"), ("data", .obj [
              ("fieldIdentifier", .obj [("nodeId", .str "n1"), ("fieldName", .str "value")]),
              ("settings", .obj [("type", .str "integer-field-config")])])]),
          ("e2", .obj [("type", .str "node-field"), ("data", .obj [
              ("fieldIdentifier", .obj [("nodeId", .str "n2"), ("fieldName", .str "prompt")]),
              ("settings", .obj [("type", .str "string-field-config")])])])])]),
      ("nodes", .arr [
        .obj [("id", .str "n1"), ("data", .obj [("inputs", .obj [
            ("value", .obj [("label", .str ""), ("value", .int 1)])])])],
        .obj [("id", .str "n2"), ("data", .obj [("inputs", .obj [
            ("prompt", .obj [("value", .str "x")])])])]])])])]

/-- The update request of the end-to-end example. -/
def updates6 : List (List (String × Json)) := [[("value", .str "25")], [("prompt", .str "cat")]]

/-- The descriptors the indexer builds from `d6`. -/
def fields6 : List FieldInfo :=
  [⟨.str "n1", .str "value", .str "integer-field-config", .str "e1", .null⟩,
   ⟨.str "n2", .str "prompt", .str "string-field-config", .str "e2", .null⟩]

/-- A form whose root container has no children (zero exposed fields). -/
def emptyForm : Json := .obj [
  ("rootElementId", .str "root"),
  ("elements", .obj [
    ("root", .obj [("type", .str "container"),
                   ("data", .obj [("children", .arr [])])])])]

/-- Document with a well-formed (empty) form but no `batch.graph` section:
accepted at construction, rejected by `apply_inputs`. -/
def docC8 : Json := .obj [("batch", .obj [("workflow", .obj [("form", emptyForm)])])]

/-- Document with the same empty form and a non-empty `batch.graph.nodes`. -/
def docW8 : Json := .obj [
  ("batch", .obj [
    ("graph", .obj [("nodes", .obj [("n1", .obj [("x", .int 1)])])]),
    ("workflow", .obj [("form", emptyForm)])])]

/-- Document exposing one integer field `num_steps` of node `n1` whose
workflow-node input metadata labels it "Num Steps". -/
def docC3 : Json := .obj [
  ("batch", .obj [
    ("workflow", .obj [
      ("form", .obj [
        ("rootElementId", .str "root"),
        ("elements", .obj [
          ("root", .obj [("type", .str "container"),
                         ("data", .obj [("children", .arr [.str "e1"])])]),
          ("e1", .obj [("type", .str "node-field"), ("data", .obj [
              ("fieldIdentifier", .obj [("nodeId", .str "n1"),
                                        ("fieldName", .str "num_steps")]),
              ("settings", .obj [("type", .str "integer-field-config")])])])])]),
      ("nodes", .arr [
        .obj [("id", .str "n1"), ("data", .obj [("inputs", .obj [
            ("num_steps", .obj [("label", .str "Num Steps"),
                                ("value", .int 30)])])])]])])])]

/-- The descriptor the indexer builds from `docC3`. -/
def dC3 : FieldInfo :=
  ⟨.str "n1", .str "num_steps", .str "integer-field-config", .str "e1", .str "Num Steps"⟩

/-- Document whose only node-field child has no `settings.type` and a field
name other than "image". -/
def docC5 : Json := .obj [
  ("batch", .obj [
    ("workflow", .obj [
      ("form", .obj [
        ("rootElementId", .str "root"),
        ("elements", .obj [
          ("root", .obj [("type", .str "container"),
                         ("data", .obj [("children", .arr [.str "e1"])])]),
          ("e1", .obj [("type", .str "node-field"), ("data", .obj [
              ("fieldIdentifier", .obj [("nodeId", .str "n1"),
                                        ("fieldName", .str "foo")])])])])])])])]

/-- Like `docC5` but with the field literally named "image" (the one
name-based fallback the indexer has). -/
def docC5img : Json := .obj [
  ("batch", .obj [
    ("workflow", .obj [
      ("form", .obj [
        ("rootElementId", .str "root"),
        ("elements", .obj [
          ("root", .obj [("type", .str "container"),
                         ("data", .obj [("children", .arr [.str "e1"])])]),
          ("e1", .obj [("type", .str "node-field"), ("data", .obj [
              ("fieldIdentifier", .obj [("nodeId", .str "n1"),
                                        ("fieldName", .str "image")])])])])])])])]

/-- Descriptors named `k` with unrelated descriptors around them, for the
duplicate-key resolution statements. -/
def fieldsK : List FieldInfo :=
  [⟨.str "nX", .str "other", .str "string-field-config", .str "eX", .null⟩,
   ⟨.str "nA", .str "k", .str "integer-field-config", .str "eA", .null⟩,
   ⟨.str "nY", .str "misc", .str "string-field-config", .str "eY", .null⟩,
   ⟨.str "nB", .str "k", .str "string-field-config", .str "eB", .null⟩]

/-- The two descriptors of `fieldsK` whose field name is `k`. -/
def fieldKA : FieldInfo := ⟨.str "nA", .str "k", .str "integer-field-config", .str "eA", .null⟩

/-- Second descriptor of `fieldsK` whose field name is `k`. -/
def fieldKB : FieldInfo := ⟨.str "nB", .str "k", .str "string-field-config", .str "eB", .null⟩

/-- Elements table with a container child `c` (holding a nested node-field
`hidden`) and a top-level node-field `e1`. -/
def cElems : List (String × Json) :=
  [("c", .obj [("type", .str "container"),
               ("data", .obj [("children", .arr [.str "hidden"])])]),
   ("hidden", .obj [("type", .str "node-field"), ("data", .obj [
       ("fieldIdentifier", .obj [("nodeId", .str "nh"), ("fieldName", .str "h")]),
       ("settings", .obj [("type", .str "string-field-config")])])]),
   ("e1", .obj [("type", .str "node-field"), ("data", .obj [
       ("fieldIdentifier", .obj [("nodeId", .str "n1"), ("fieldName", .str "a")]),
       ("settings", .obj [("type", .str "string-field-config")])])])]


/-- Document with two exposed fields both named `k` (nodes `g1` then `g2`
in form order), for exercising duplicate-key binding through the whole
pipeline. -/
def docK : Json := .obj [
  ("batch", .obj [
    ("graph", .obj [("nodes", .obj [
       ("g1", .obj [("k", .int 0)]),
       ("g2", .obj [("k", .int 0)])])]),
    ("workflow", .obj [
      ("form", .obj [
        ("rootElementId", .str "root"),
        ("elements", .obj [
          ("root", .obj [("type", .str "container"),
                         ("data", .obj [("children", .arr [.str "e1", .str "e2"])])]),
          ("e1", .obj [("type", .str "node-field"), ("data", .obj [
              ("fieldIdentifier", .obj [("nodeId", .str "g1"), ("fieldName", .str "k")]),
              ("settings", .obj [("type", .str "integer-field-config")])])]),
          ("e2", .obj [("type", .str "node-field"), ("data", .obj [
              ("fieldIdentifier", .obj [("nodeId", .str "g2"), ("fieldName", .str "k")]),
              ("settings", .obj [("type", .str "integer-field-config")])])])])])])])]


theorem pyEq_str_iff (x : Json) (c : String) : pyEq x (.str c) = true ↔ x = .str c := by
  cases x <;> simp [pyEq]

theorem findTarget_eq_filter (fields : List FieldInfo) (key : String) (n : Nat) :
    findTarget fields key n =
      (fields.filter (fun f => pyEq f.fieldNameInNode (.str key))).get? n := by
  induction fields generalizing n with
  | nil => simp [findTarget]
  | cons f rest ih =>
      by_cases hf : pyEq f.fieldNameInNode (.str key) = true
      · cases n with
        | zero => simp [findTarget, hf, List.filter_cons]
        | succ m => simp [findTarget, hf, List.filter_cons, ih]
      · simp [findTarget, hf, List.filter_cons, ih]

theorem setStr_self (kvs : List (String × Json)) (k : String) (v : Json)
    (h : lookupStr kvs k = some v) : setStr kvs k v = kvs := by
  induction kvs with
  | nil => simp [lookupStr] at h
  | cons kv rest ih =>
      obtain ⟨k', w⟩ := kv
      by_cases hk : (k' == k) = true
      · have hk' : k' = k := by simpa using hk
        simp [lookupStr, hk] at h
        simp [setStr, hk, hk', h]
      · simp [lookupStr, hk] at h
        simp [setStr, hk, ih h]

theorem setStr_append (kvs : List (String × Json)) (k : String) (v : Json)
    (h : lookupStr kvs k = none) : setStr kvs k v = kvs ++ [(k, v)] := by
  induction kvs with
  | nil => simp [setStr]
  | cons kv rest ih =>
      obtain ⟨k', w⟩ := kv
      by_cases hk : (k' == k) = true
      · simp [lookupStr, hk] at h
      · simp [lookupStr, hk] at h
        simp [setStr, hk, ih h]

theorem pyGetAttr_ok (j : Json) (k : String) (d b : Json)
    (h : pyGetAttr j k d = .ok b) :
    ∃ kvs, j = .obj kvs ∧ b = (lookupStr kvs k).getD d := by
  cases j <;> simp [pyGetAttr] at h
  case obj kvs => exact ⟨kvs, rfl, h.symm⟩

theorem setPath_one (x : Json) (k : String) (dflt ns : Json)
    (h : pyGetAttr x k dflt = .ok ns) : setPathIfExists x [k] ns = x := by
  obtain ⟨kvs, rfl, hb⟩ := pyGetAttr_ok x k dflt ns h
  cases hl : lookupStr kvs k with
  | none => simp [setPathIfExists, hl]
  | some w =>
      rw [hl] at hb
      simp at hb
      subst hb
      simp only [setPathIfExists, hl]
      rw [setStr_self _ _ _ hl]

theorem setPath_two (x : Json) (k₁ k₂ : String) (d₁ d₂ b ns : Json)
    (h₁ : pyGetAttr x k₁ d₁ = .ok b) (h₂ : pyGetAttr b k₂ d₂ = .ok ns) :
    setPathIfExists x [k₁, k₂] ns = x := by
  obtain ⟨kvs, rfl, hb⟩ := pyGetAttr_ok x k₁ d₁ b h₁
  cases hl : lookupStr kvs k₁ with
  | none => simp [setPathIfExists, hl]
  | some b₀ =>
      rw [hl] at hb
      simp at hb
      rw [hb] at h₂
      have inner : setPathIfExists b₀ [k₂] ns = b₀ := setPath_one b₀ k₂ d₂ ns h₂
      simp only [setPathIfExists, hl]
      rw [inner, setStr_self _ _ _ hl]

theorem setPath_three (x : Json) (k₁ k₂ k₃ : String) (d₁ d₂ d₃ b g ns : Json)
    (h₁ : pyGetAttr x k₁ d₁ = .ok b) (h₂ : pyGetAttr b k₂ d₂ = .ok g)
    (h₃ : pyGetAttr g k₃ d₃ = .ok ns) :
    setPathIfExists x [k₁, k₂, k₃] ns = x := by
  obtain ⟨kvs, rfl, hb⟩ := pyGetAttr_ok x k₁ d₁ b h₁
  cases hl : lookupStr kvs k₁ with
  | none => simp [setPathIfExists, hl]
  | some b₀ =>
      rw [hl] at hb
      simp at hb
      rw [hb] at h₂
      have inner : setPathIfExists b₀ [k₂, k₃] ns = b₀ :=
        setPath_two b₀ k₂ k₃ d₂ d₃ g ns h₂ h₃
      simp only [setPathIfExists, hl]
      rw [inner, setStr_self _ _ _ hl]

theorem processNodeField_ok (labels : HMap (List (String × Json))) (cid fieldData : Json)
    (r : Option FieldInfo) (h : processNodeField labels cid fieldData = .ok r) :
    ∃ fi, r = some fi ∧ fi.formElementId = cid := by
  unfold processNodeField at h
  repeat any_goals split at h
  all_goals try exact Except.noConfusion h
  all_goals injection h with h
  all_goals exact ⟨_, h.symm, rfl⟩

theorem processChild_ok (elements : List (String × Json))
    (labels : HMap (List (String × Json))) (cid : Json) (r : Option FieldInfo)
    (h : processChild elements labels cid = .ok r) :
    r.map (fun fi => fi.formElementId) =
      (if isNodeFieldChild elements cid then some cid else none) := by
  unfold processChild at h
  split at h
  case isFalse => exact Except.noConfusion h
  case isTrue hh =>
    cases cid <;> simp at h
    case null => simp [isNodeFieldChild, ← h]
    case bool b => simp [isNodeFieldChild, ← h]
    case int n => simp [isNodeFieldChild, ← h]
    case arr l' => simp [hashable] at hh
    case obj o' => simp [hashable] at hh
    case str s =>
      have hnf : isNodeFieldChild elements (Json.str s) =
          (match (lookupStr elements s).getD Json.null with
           | Json.obj fkvs =>
               pyEq ((lookupStr fkvs "type").getD Json.null) (Json.str "node-field")
           | _ => false) := rfl
      revert h
      cases he : (lookupStr elements s).getD Json.null <;> intro h <;>
        rw [hnf, he] <;> simp at h ⊢ <;> try exact h.symm
      case obj fkvs =>
        by_cases hq :
            pyEq ((lookupStr fkvs "type").getD Json.null) (Json.str "node-field") = true
        · simp only [hq, if_true] at h ⊢
          obtain ⟨fi, rfl, hfi⟩ := processNodeField_ok _ _ _ _ h
          simp [hfi]
        · simp [hq] at h ⊢
          exact h.symm

theorem processChildren_map (elements : List (String × Json))
    (labels : HMap (List (String × Json))) (ids : List Json) (l : List FieldInfo)
    (h : processChildren elements labels ids = .ok l) :
    l.map (fun f => f.formElementId) = ids.filter (isNodeFieldChild elements) := by
  induction ids generalizing l with
  | nil =>
      simp [processChildren] at h
      simp [← h]
  | cons cid rest ih =>
      simp only [processChildren] at h
      revert h
      cases hc : processChild elements labels cid <;> intro h
      · exact Except.noConfusion h
      · revert h
        cases hr : processChildren elements labels rest <;> intro h
        · exact Except.noConfusion h
        · rename_i fi? rest'
          injection h with h
          have hmap := processChild_ok _ _ _ _ hc
          have hrest := ih _ hr
          by_cases hn : isNodeFieldChild elements cid = true
          · rw [if_pos hn] at hmap
            cases fi? with
            | none => simp at hmap
            | some fi =>
                simp at hmap
                simp [← h, List.filter_cons, hn, hrest, hmap]
          · rw [if_neg hn] at hmap
            cases fi? with
            | some fi => simp at hmap
            | none => simp [← h, List.filter_cons, hn, hrest]

theorem findTarget_mem (fields : List FieldInfo) (key : String) (n : Nat) (f : FieldInfo)
    (h : findTarget fields key n = some f) : f ∈ fields := by
  induction fields generalizing n with
  | nil => simp [findTarget] at h
  | cons g rest ih =>
      by_cases hg : pyEq g.fieldNameInNode (.str key) = true
      · cases n with
        | zero =>
            simp [findTarget, hg] at h
            exact h ▸ List.mem_cons_self _ _
        | succ m =>
            simp [findTarget, hg] at h
            exact List.mem_cons_of_mem _ (ih m h)
      · simp [findTarget, hg] at h
        exact List.mem_cons_of_mem _ (ih n h)

/-- C1: for every descriptor list and every update request consisting of
two items bearing the same key, when exactly two descriptors match that
key (in document-definition order `A` then `B`), resolution binds the
first item's value to `A` and the second item's value to `B` — document
order, not request order, and independent of where `A` and `B` sit among
the other descriptors. -/
theorem claim1_duplicate_keys_bind_in_document_order
    (fields : List FieldInfo) (k : String) (v₁ v₂ : Json) (A B : FieldInfo)
    (h : fields.filter (fun f => pyEq f.fieldNameInNode (.str k)) = [A, B]) :
    resolveUpdates fields [[(k, v₁)], [(k, v₂)]] = .ok [(A, v₁), (B, v₂)] := by
  simp [resolveUpdates, resolveUpdatesAux, cursorGet, cursorSet, findTarget_eq_filter, h]

/-- Witness for C1 at a concrete descriptor list with the two `k`
descriptors separated by unrelated ones, together with the same behaviour
through the full pipeline on `docK`: the first item lands on `g1` and the
second on `g2`, in form-definition order. -/
theorem claim1_witness :
    (fieldsK.filter (fun f => pyEq f.fieldNameInNode (.str "k")) = [fieldKA, fieldKB]) ∧
    resolveUpdates fieldsK [[("k", .int 1)], [("k", .int 2)]] =
      .ok [(fieldKA, .int 1), (fieldKB, .int 2)] ∧
    (processAndApply docK [[("k", .int 1)], [("k", .int 2)]]).toOption.bind
        (fun r => graphNodeField r "g1" "k") = some (.int 1) ∧
    (processAndApply docK [[("k", .int 1)], [("k", .int 2)]]).toOption.bind
        (fun r => graphNodeField r "g2" "k") = some (.int 2) :=
  ⟨rfl, claim1_duplicate_keys_bind_in_document_order fieldsK "k" (.int 1) (.int 2)
          fieldKA fieldKB rfl, rfl, rfl⟩

/-- C2: for every document the constructor accepts, the descriptor
sequence has exactly one entry per node-field child of the form's root
container, in the declared children order: the sequence's form-element ids
are precisely the node-field child ids, in order, regardless of anything
else in the document (and, the embedding being pure, the sequence is fixed
once built). -/
theorem claim2_descriptor_sequence_matches_declared_children
    (payload : Json) (l : List FieldInfo)
    (h : buildOrderedExposedFieldsList payload = .ok l) :
    l.map (fun f => f.formElementId) =
      (formChildrenOf payload).filter (isNodeFieldChild (formElementsOf payload)) := by
  unfold buildOrderedExposedFieldsList at h
  repeat any_goals split at h
  all_goals try exact Except.noConfusion h
  have hm := processChildren_map _ _ _ _ h
  simp_all [formSection, formElementsOf, formChildrenOf]
  repeat any_goals split
  all_goals simp_all

/-- Witness for C2 on the concrete document `d6` with two exposed fields. -/
theorem claim2_witness :
    buildOrderedExposedFieldsList d6 = .ok fields6 ∧
    fields6.map (fun f => f.formElementId) =
      (formChildrenOf d6).filter (isNodeFieldChild (formElementsOf d6)) :=
  ⟨rfl, claim2_descriptor_sequence_matches_declared_children d6 fields6 rfl⟩

/-- C3 counterexample: the claim says the update keys "Num Steps",
"num_steps" and "NUM_STEPS" all resolve to the descriptor labelled
"Num Steps"; on the concrete document `docC3` (field name `num_steps`,
label "Num Steps") the keys "NUM_STEPS" and "Num Steps" fail with the
not-found error, and only the raw field name "num_steps" resolves — the
code never consults labels and applies no case/space normalisation. -/
theorem claim3_label_resolution_counterexample :
    buildOrderedExposedFieldsList docC3 = .ok [dC3] ∧
    dC3.fieldLabel = .str "Num Steps" ∧
    resolveUpdates [dC3] [[("NUM_STEPS", .int 5)]] =
      .error (.occurrenceNotFound "NUM_STEPS" 1) ∧
    resolveUpdates [dC3] [[("Num Steps", .int 5)]] =
      .error (.occurrenceNotFound "Num Steps" 1) ∧
    resolveUpdates [dC3] [[("num_steps", .int 5)]] = .ok [(dC3, .int 5)] :=
  ⟨rfl, rfl, rfl, rfl, rfl⟩

/-- C3 (amended): an update key is matched against descriptors only by
exact equality with the raw field name; whenever the search loop selects a
descriptor, that descriptor's `field_name_in_node` is literally the update
key — the label is never consulted and no normalisation is applied. -/
theorem claim3_resolution_matches_raw_field_name_only
    (fields : List FieldInfo) (key : String) (n : Nat) (f : FieldInfo)
    (h : findTarget fields key n = some f) : f.fieldNameInNode = .str key := by
  induction fields generalizing n with
  | nil => simp [findTarget] at h
  | cons g rest ih =>
      by_cases hg : pyEq g.fieldNameInNode (.str key) = true
      · cases n with
        | zero =>
            simp [findTarget, hg] at h
            rw [← h]
            exact (pyEq_str_iff _ _).mp hg
        | succ m =>
            simp [findTarget, hg] at h
            exact ih m h
      · simp [findTarget, hg] at h
        exact ih n h

/-- Witness for the amended C3 on the `docC3` descriptor. -/
theorem claim3_witness :
    findTarget [dC3] "num_steps" 0 = some dC3 ∧ dC3.fieldNameInNode = .str "num_steps" :=
  ⟨rfl, claim3_resolution_matches_raw_field_name_only [dC3] "num_steps" 0 dC3 rfl⟩

/-- C4 counterexample: the claim says a missing field not named "board" is
skipped without being written; on a node lacking the field "foo" at every
recognised path, the code writes "foo" at the node's top level anyway. -/
theorem claim4_missing_field_inserted_counterexample :
    applyToGraphNode (.obj [("other", .int 1)]) (.str "foo") (.int 7) =
      .ok (.obj [("other", .int 1), ("foo", .int 7)]) := rfl

/-- C4 (amended): when the field name is found at none of the recognised
paths of the graph node, the binding is not skipped: the field — whatever
its name, "board" is not special-cased — is inserted at the node's top
level (after a logged warning), appended as a new entry. -/
theorem claim4_absent_field_inserted_at_top_level
    (kvs : List (String × Json)) (k : String) (vp : Json)
    (h : findGraphPath (.obj kvs) (.str k) = .ok .absent) :
    applyToGraphNode (.obj kvs) (.str k) vp = .ok (.obj (kvs ++ [(k, vp)])) := by
  have hl : lookupStr kvs k = none := by
    cases hlk : lookupStr kvs k with
    | none => rfl
    | some w =>
        exfalso
        unfold findGraphPath at h
        simp [pyContains, hashable, hlk] at h
  unfold applyToGraphNode
  rw [h]
  simp [pySetKey, hashable, setStr_append _ _ _ hl]

/-- Witness for the amended C4: a node carrying only an `inputs` dict that
lacks the field `b` gets `b` appended at top level. -/
theorem claim4_witness :
    findGraphPath (.obj [("inputs", .obj [("a", .int 1)])]) (.str "b") = .ok .absent ∧
    applyToGraphNode (.obj [("inputs", .obj [("a", .int 1)])]) (.str "b") (.str "x") =
      .ok (.obj [("inputs", .obj [("a", .int 1)]), ("b", .str "x")]) :=
  ⟨rfl, claim4_absent_field_inserted_at_top_level
          [("inputs", .obj [("a", .int 1)])] "b" (.str "x") rfl⟩

/-- C5 counterexample: the claim says a field with absent type metadata and
failed inference falls back to a generic object type with a warning and
never hard-aborts the parse; on `docC5` (field `foo`, no `settings.type`)
construction aborts with the missing-type error, while `docC5img` shows
the only name-based fallback that exists: a field literally named "image"
is typed "ImageField". -/
theorem claim5_missing_type_abort_counterexample :
    buildOrderedExposedFieldsList docC5 = .error (.missingSettingsType (.str "e1")) ∧
    buildOrderedExposedFieldsList docC5img =
      .ok [⟨.str "n1", .str "image", .str "ImageField", .str "e1", .null⟩] :=
  ⟨rfl, rfl⟩

/-- C5 (amended): during indexing, a node-field element whose
`settings.type` is falsy is special-cased only when its field name equals
"image"; for every other field name the whole parse aborts with the
missing-type error — there is no graph-based inference and no generic
object default. -/
theorem claim5_missing_type_aborts_unless_image
    (labels : HMap (List (String × Json))) (cid fieldData fid nid fn st st₀ : Json)
    (h₁ : pyGetAttr fieldData "fieldIdentifier" (.obj []) = .ok fid)
    (h₂ : pyGetAttr fid "nodeId" .null = .ok nid)
    (h₃ : pyGetAttr fid "fieldName" .null = .ok fn)
    (h₄ : pyGetAttr fieldData "settings" (.obj []) = .ok st)
    (h₅ : pyGetAttr st "type" .null = .ok st₀)
    (h₆ : pyTruthy st₀ = false)
    (h₇ : pyEq fn (.str "image") = false) :
    processNodeField labels cid fieldData = .error (.missingSettingsType cid) := by
  simp [processNodeField, h₁, h₂, h₃, h₄, h₅, h₆, h₇]

/-- Witness for the amended C5 at a concrete node-field element. -/
theorem claim5_witness :
    pyGetAttr (.obj [("fieldIdentifier",
        .obj [("nodeId", .str "n9"), ("fieldName", .str "bar")])])
        "fieldIdentifier" (.obj []) =
      .ok (.obj [("nodeId", .str "n9"), ("fieldName", .str "bar")]) ∧
    pyTruthy .null = false ∧
    pyEq (.str "bar") (.str "image") = false ∧
    processNodeField [] (.str "e9")
        (.obj [("fieldIdentifier",
            .obj [("nodeId", .str "n9"), ("fieldName", .str "bar")])]) =
      .error (.missingSettingsType (.str "e9")) :=
  ⟨rfl, rfl, rfl,
   claim5_missing_type_aborts_unless_image [] (.str "e9")
     (.obj [("fieldIdentifier", .obj [("nodeId", .str "n9"), ("fieldName", .str "bar")])])
     (.obj [("nodeId", .str "n9"), ("fieldName", .str "bar")])
     (.str "n9") (.str "bar") (.obj []) .null rfl rfl rfl rfl rfl rfl rfl⟩

/-- C6: on the document `d6`, which exposes the integer field `value` of
node `n1` and then the string field `prompt` of node `n2`, applying the
request `[{"value": "25"}, {"prompt": "cat"}]` yields a document whose
graph node `n1` holds the integer 25 (coerced from the string "25") at
`value` and whose graph node `n2` holds the string "cat" at `prompt`. -/
theorem claim6_end_to_end_coercion :
    (processAndApply d6 updates6).toOption.bind
        (fun r => graphNodeField r "n1" "value") = some (.int 25) ∧
    (processAndApply d6 updates6).toOption.bind
        (fun r => graphNodeField r "n2" "prompt") = some (.str "cat") :=
  ⟨rfl, rfl⟩

/-- C7: `apply_inputs` never assigns to the processor's stored payload or
descriptor list; as a state transition it returns the processor state
unchanged, and only the freshly built document in the call's result is
new (this is the source's deep-copy-then-mutate discipline, which in the
pure embedding means the method is a function of the state). -/
theorem claim7_processor_state_unchanged_by_apply
    (p : ProcessorState) (updates : List (List (String × Json))) :
    (p.applyInputsCall updates).1 = p := rfl

/-- C8 counterexample: the claim says an empty update request succeeds on
every document accepted at construction; `docC8` has a well-formed form
but no `batch.graph` section, so construction succeeds yet applying zero
updates raises the missing-graph-nodes error. -/
theorem claim8_empty_update_failure_counterexample :
    buildOrderedExposedFieldsList docC8 = .ok [] ∧
    applyInputs docC8 [] [] = .error .noGraphNodes :=
  ⟨rfl, rfl⟩

/-- C8 (amended): for every document accepted at construction, applying an
empty update request, whenever it completes at all, returns a document
deep-equal to the input (it can fail, e.g. when `batch.graph.nodes` is
absent or empty). -/
theorem claim8_empty_update_preserves_document
    (payload : Json) (fields : List FieldInfo) (d : Json)
    (haccept : buildOrderedExposedFieldsList payload = .ok fields)
    (h : applyInputs payload fields [] = .ok d) : d = payload := by
  unfold applyInputs at h
  simp only [applyUpdatesLoop] at h
  repeat any_goals split at h
  all_goals try exact Except.noConfusion h
  injection h with h
  rw [← h,
      setPath_three payload "batch" "graph" "nodes" (.obj []) (.obj []) (.obj [])
        _ _ _ (by assumption) (by assumption) (by assumption),
      setPath_three payload "batch" "workflow" "nodes" (.obj []) (.obj []) (.arr [])
        _ _ _ (by assumption) (by assumption) (by assumption)]

/-- Witness for the amended C8 on `docW8`. -/
theorem claim8_witness :
    buildOrderedExposedFieldsList docW8 = .ok [] ∧
    applyInputs docW8 [] [] = .ok docW8 ∧ docW8 = docW8 :=
  ⟨rfl, rfl, claim8_empty_update_preserves_document docW8 [] docW8 rfl rfl⟩

/-- C9 counterexample: the claim says the third occurrence of a key with
only two matching descriptors fails with a distinct, nameable
ExhaustedFieldError; the code raises the same generic error (one raise
site, a plain ValueError) it uses for a completely unknown key — the two
runs below produce the same error constructor, distinguished only by the
message payload, so no distinct exhaustion error kind exists. -/
theorem claim9_exhaustion_error_not_distinct_counterexample :
    resolveUpdates [fieldKA, fieldKB]
        [[("k", .int 1)], [("k", .int 2)], [("k", .int 3)]] =
      .error (.occurrenceNotFound "k" 3) ∧
    resolveUpdates [fieldKA, fieldKB] [[("bogus", .int 1)]] =
      .error (.occurrenceNotFound "bogus" 1) ∧
    Err.isOccurrenceNotFound (.occurrenceNotFound "k" 3) = true ∧
    Err.isOccurrenceNotFound (.occurrenceNotFound "bogus" 1) = true ∧
    processAndApply docK [[("k", .int 1)], [("k", .int 2)], [("k", .int 3)]] =
      .error (.occurrenceNotFound "k" 3) :=
  ⟨rfl, rfl, rfl, rfl, rfl⟩

/-- C9 (amended): for every descriptor list with exactly two descriptors
matching a key, a request of three items with that key fails fatally on
the third occurrence — with the generic not-found error (reporting the 3rd
occurrence could not be located), the same error kind used for unknown
keys, not a distinct exhaustion error. -/
theorem claim9_third_occurrence_fails
    (fields : List FieldInfo) (k : String) (v₁ v₂ v₃ : Json)
    (h : (fields.filter (fun f => pyEq f.fieldNameInNode (.str k))).length = 2) :
    resolveUpdates fields [[(k, v₁)], [(k, v₂)], [(k, v₃)]] =
      .error (.occurrenceNotFound k 3) := by
  obtain ⟨A, B, hAB⟩ := List.length_eq_two.mp h
  simp [resolveUpdates, resolveUpdatesAux, cursorGet, cursorSet, findTarget_eq_filter, hAB]

/-- Witness for the amended C9 at the concrete descriptor list. -/
theorem claim9_witness :
    ((fieldsK.filter (fun f => pyEq f.fieldNameInNode (.str "k"))).length = 2) ∧
    resolveUpdates fieldsK [[("k", .str "a")], [("k", .str "b")], [("k", .str "c")]] =
      .error (.occurrenceNotFound "k" 3) :=
  ⟨rfl, claim9_third_occurrence_fails fieldsK "k" (.str "a") (.str "b") (.str "c") rfl⟩

/-- C10: indexing scans only the immediate children of the root container:
a child whose element is a nested container is skipped without error and
contributes no descriptor (inserting or removing it anywhere in the
children list leaves the descriptor sequence unchanged), so node-fields
reachable only through it never enter the sequence; and resolution only
ever selects members of the descriptor sequence, so such a field can never
be targeted by an update. -/
theorem claim10_nested_container_children_ignored
    (elements : List (String × Json)) (labels : HMap (List (String × Json)))
    (pre post : List Json) (cid : Json)
    (h : isContainerChild elements cid = true) :
    processChildren elements labels (pre ++ cid :: post) =
      processChildren elements labels (pre ++ post) ∧
    (∀ (fields : List FieldInfo) (key : String) (n : Nat) (f : FieldInfo),
       findTarget fields key n = some f → f ∈ fields) := by
  constructor
  · have hskip : processChild elements labels cid = .ok none := by
      unfold isContainerChild at h
      cases cid <;> simp at h
      case str s =>
        revert h
        cases hl : (lookupStr elements s).getD Json.null <;> intro h <;> simp at h
        case obj fkvs =>
          have ht := (pyEq_str_iff _ _).mp h
          have hne : pyEq (Json.str "container") (Json.str "node-field") = false := rfl
          simp [processChild, hashable, hl, ht, hne]
    induction pre with
    | nil =>
        simp only [List.nil_append, processChildren, hskip]
        cases hp : processChildren elements labels post <;> simp
    | cons p rest ih =>
        simp only [List.cons_append, processChildren, List.append_eq]
        rw [ih]
  · intro fields key n f hf
    exact findTarget_mem fields key n f hf

/-- Witness for C10: dropping the container child `c` from the children
list leaves the descriptor computation unchanged. -/
theorem claim10_witness :
    isContainerChild cElems (.str "c") = true ∧
    processChildren cElems [] ([Json.str "e1"] ++ Json.str "c" :: []) =
      processChildren cElems [] ([Json.str "e1"] ++ []) :=
  ⟨rfl, (claim10_nested_container_children_ignored cElems [] [Json.str "e1"] []
          (Json.str "c") rfl).1⟩

end WorkflowProc
